import Mathlib

/-!
Verification of the pty-slave resolution core (`ueberzug/process.py`).

The Python source is shallowly embedded:
* `/proc/<pid>/stat` contents are `List Char`; the anchored regex of
  `get_info` is embedded as an executable parser with the same
  backtracking semantics (greedy bounded command-name capture);
* `calculate_minor_device_number` is embedded over `Int` with Python's
  arbitrary-precision bitwise semantics;
* the filesystem is a record of pure functions (`FS`), and Python
  exceptions become an `Except` error type with one constructor per
  exception class that can escape the code.
-/

/-- `MAX_PROCESS_NAME_LENGTH = 15` from the source. -/
def MAX_PROCESS_NAME_LENGTH : Nat := 15

/-- The fields captured by the `get_info` regex, each as the raw captured
characters (Python returns a dict of bytes). -/
structure StatInfo where
  pid : List Char
  comm : List Char
  state : Char
  ppid : List Char
  pgrp : List Char
  session : List Char
  tty_nr : List Char
deriving DecidableEq

/-- Value of a digit string, as Python `int` computes it on `\d+`. -/
def digitsToNat (ds : List Char) : Nat :=
  ds.foldl (fun a c => 10 * a + (c.toNat - 48)) 0

/-- Python `int(b)` on a byte string matched by `[-+]?\d+`. -/
def pyInt (s : List Char) : Int :=
  match s with
  | '-' :: ds => -(digitsToNat ds : Int)
  | '+' :: ds => (digitsToNat ds : Int)
  | ds => (digitsToNat ds : Int)

/-- One regex field `[-+]?\d+`: the matched characters and the rest of the
input.  `\d+` is maximal-munch; a digit run cannot be shortened to let a
later literal match, so no backtracking case is lost. -/
def parse_int_field (s : List Char) : Option (List Char × List Char) :=
  match s with
  | '-' :: rest =>
    match rest.span Char.isDigit with
    | ([], _) => none
    | (ds, rest2) => some ('-' :: ds, rest2)
  | '+' :: rest =>
    match rest.span Char.isDigit with
    | ([], _) => none
    | (ds, rest2) => some ('+' :: ds, rest2)
  | _ =>
    match s.span Char.isDigit with
    | ([], _) => none
    | (ds, rest2) => some (ds, rest2)

/-- The regex tail after the command-name capture:
`\) (?P<state>.) (?P<ppid>[-+]?\d+) (?P<pgrp>[-+]?\d+) (?P<session>[-+]?\d+) (?P<tty_nr>[-+]?\d+)`.
`.` matches any byte except a newline; input after the last field is
ignored (the pattern is not end-anchored). -/
def parse_stat_tail (r : List Char) :
    Option (Char × List Char × List Char × List Char × List Char) :=
  match r with
  | ')' :: ' ' :: state :: ' ' :: rest =>
    if state = '\n' then none
    else
      match parse_int_field rest with
      | none => none
      | some (ppid, r1) =>
        match r1 with
        | ' ' :: r1a =>
          match parse_int_field r1a with
          | none => none
          | some (pgrp, r2) =>
            match r2 with
            | ' ' :: r2a =>
              match parse_int_field r2a with
              | none => none
              | some (session, r3) =>
                match r3 with
                | ' ' :: r3a =>
                  match parse_int_field r3a with
                  | none => none
                  | some (tty, _) => some (state, ppid, pgrp, session, tty)
                | _ => none
            | _ => none
        | _ => none
  | _ => none

/-- The greedy bounded capture `(?P<comm>.{0,15})` followed by the tail:
try the longest command-name prefix first (length `k` down to `0`), and for
each candidate length require the whole remaining pattern to match —
exactly the regex engine's backtracking order. -/
def try_comm (k : Nat) (r : List Char) :
    Option (List Char × Char × List Char × List Char × List Char × List Char) :=
  let pre := r.take k
  let attempt :=
    if pre.length = k ∧ pre.all (fun c => c != '\n') then
      match parse_stat_tail (r.drop k) with
      | some (st, ppid, pgrp, session, tty) => some (pre, st, ppid, pgrp, session, tty)
      | none => none
    else none
  match attempt with
  | some v => some v
  | none =>
    match k with
    | 0 => none
    | k' + 1 => try_comm k' r

/-- `re.search` of the `get_info` pattern on the stat-file contents.  The
pattern starts with `^` and the flags do not include MULTILINE, so only a
match at position 0 is possible.  `none` models a failed search (on which
the Python code's `.groupdict()` raises `AttributeError`). -/
def get_info_parse (data : List Char) : Option StatInfo :=
  match parse_int_field data with
  | none => none
  | some (pid, r) =>
    match r with
    | ' ' :: '(' :: r2 =>
      match try_comm MAX_PROCESS_NAME_LENGTH r2 with
      | none => none
      | some (comm, st, ppid, pgrp, session, tty) =>
        some ⟨pid, comm, st, ppid, pgrp, session, tty⟩
    | _ => none

/-- Python's bitwise AND of an arbitrary integer with a nonnegative mask
whose bits all lie below bit 32.  Python uses infinite two's complement,
under which `n & m = (n mod 2^32) & m` for every such mask. -/
def pyAnd32 (n : Int) (m : Nat) : Nat :=
  (n % (2 ^ 32 : Int)).toNat &&& m

/-- `calculate_minor_device_number` from the source, constants included.
Total by construction: it is a pure function on all of `Int`. -/
def calculate_minor_device_number (tty_nr : Int) : Nat :=
  let TTY_NR_BITS := 32
  let FIRST_BITS := 8
  let SHIFTED_BITS := 12
  let FIRST_BITS_MASK := 0xFF
  let SHIFTED_BITS_MASK := 0xFFF00000
  pyAnd32 tty_nr FIRST_BITS_MASK +
    (pyAnd32 tty_nr SHIFTED_BITS_MASK >>> (TTY_NR_BITS - SHIFTED_BITS - FIRST_BITS))

/-- Outcome of `os.stat(path)` on a candidate device node. -/
inductive StatResult where
  | found (rdev : Nat)
  | fileNotFound
  | otherError
deriving DecidableEq

/-- Python exceptions that can escape the embedded code.
`fileNotFound` is `FileNotFoundError` (the spec's `ProcessNotFound`),
`attributeError` is the `AttributeError` raised by `.groupdict()` on a
failed regex search (the spec's `MalformedRecord`), `osError` is any
`os.stat` failure other than `FileNotFoundError`, and `recursionError`
models exhaustion of the Python call stack (never reached from `resolve`,
whose recursion depth is bounded by 3). -/
inductive PyError where
  | fileNotFound
  | attributeError
  | osError
  | recursionError
deriving DecidableEq

/-- The read-only filesystem state the code consults: the contents of
`/proc/<pid>/stat` (`none` = opening raises `FileNotFoundError`), the
result of `os.stat` on a path, and the lines of `/proc/tty/drivers`. -/
structure FS where
  procStat : Int → Option (List Char)
  devStat : String → StatResult
  ttyDrivers : List (List Char)

/-- `get_info`: open the stat record and run the anchored search. -/
def get_info (fs : FS) (pid : Int) : Except PyError StatInfo :=
  match fs.procStat pid with
  | none => .error .fileNotFound
  | some data =>
    match get_info_parse data with
    | none => .error .attributeError
    | some info => .ok info

/-- A character the lazy name group `(\S| )+?` can match: any byte that is
not whitespace, or a space — i.e. anything but the other whitespace bytes. -/
def driverNameChar (c : Char) : Bool :=
  c != '\t' && c != '\n' && c != '\r' && c != '\x0b' && c != '\x0c'

/-- `\S+` after `/dev/`, maximal munch, then the required literal space;
a shorter `\S+` run would put a non-space where the space is required, so
maximal munch loses no match. -/
def parse_dev_path (r : List Char) : Option (List Char) :=
  match r with
  | '/' :: 'd' :: 'e' :: 'v' :: '/' :: rest =>
    match rest.span (fun c => !c.isWhitespace) with
    | ([], _) => none
    | (s, rest2) =>
      match rest2 with
      | ' ' :: _ => some ('/' :: 'd' :: 'e' :: 'v' :: '/' :: s)
      | _ => none
  | _ => none

/-- After the name group: ` +` (maximal munch — a shorter space run would
put a space where `/` is required) then the path group. -/
def parse_after_name (r : List Char) : Option (List Char) :=
  match r with
  | ' ' :: rest => parse_dev_path (rest.dropWhile (fun c => c = ' '))
  | _ => none

/-- The lazy group `(?P<name>(\S| )+?)`: extend the name one character at
a time, and at each length try to finish the whole pattern first —
shortest successful name wins, exactly the lazy quantifier's order. -/
def scan_driver_name (nameRev : List Char) : List Char → Option (List Char × List Char)
  | [] => none
  | c :: rest =>
    if driverNameChar c then
      match parse_after_name rest with
      | some path => some ((c :: nameRev).reverse, path)
      | none => scan_driver_name (c :: nameRev) rest
    else none

/-- `re.search` of `^(?P<name>(\S| )+?) +(?P<path>/dev/\S+) ` on one line
of `/proc/tty/drivers` (anchored at position 0 by `^`). -/
def parse_driver_line (line : List Char) : Option (List Char × List Char) :=
  scan_driver_name [] line

/-- The body of `get_pty_slave_folders`: parse every line, collect the
path of each line whose driver name is exactly `pty_slave`; a line the
regex does not match raises `AttributeError`. -/
def get_pty_slave_folders_compute (lines : List (List Char)) :
    Except PyError (List String) :=
  match lines with
  | [] => .ok []
  | line :: rest =>
    match parse_driver_line line with
    | none => .error .attributeError
    | some (name, path) =>
      match get_pty_slave_folders_compute rest with
      | .error e => .error e
      | .ok paths =>
        .ok (if name = "pty_slave".toList then String.mk path :: paths else paths)

/-- `get_pty_slave_folders` as `get_pty_slave` observes it: `lru_cache` is
value-transparent in a pure model, so the resolver reads the computed
value; the cache dynamics themselves are modelled by
`get_pty_slave_folders_cached` below. -/
def get_pty_slave_folders (fs : FS) : Except PyError (List String) :=
  get_pty_slave_folders_compute fs.ttyDrivers

/-- One call to the `functools.lru_cache`-wrapped zero-argument
`get_pty_slave_folders`, with the cache state made explicit: a hit returns
the memoized list without reading the file; a miss computes from the
current file contents and stores the result only on success (`lru_cache`
does not cache raised exceptions). Returns (call result, new cache). -/
def get_pty_slave_folders_cached (cache : Option (List String))
    (lines : List (List Char)) :
    Except PyError (List String) × Option (List String) :=
  match cache with
  | some v => (.ok v, some v)
  | none =>
    match get_pty_slave_folders_compute lines with
    | .error e => (.error e, none)
    | .ok v => (.ok v, some v)

/-- The candidate path `f'{folder}/{minor_device_number}'`. -/
def device_path_of (folder : String) (minor : Nat) : String :=
  folder ++ "/" ++ toString minor

/-- The `for folder in pty_slave_folders` loop of `get_pty_slave`:
stat each candidate; `FileNotFoundError` is swallowed by the
`try`/`except` and the loop continues; any other stat failure propagates;
a candidate whose raw `st_rdev` equals `tty_nr` is returned at once. -/
def scan_pty_folders (fs : FS) (folders : List String) (tty_nr : Int)
    (minor : Nat) : Except PyError (Option String) :=
  match folders with
  | [] => .ok none
  | folder :: rest =>
    match fs.devStat (device_path_of folder minor) with
    | .found rdev =>
      if tty_nr = (rdev : Int) then .ok (some (device_path_of folder minor))
      else scan_pty_folders fs rest tty_nr minor
    | .fileNotFound => scan_pty_folders fs rest tty_nr minor
    | .otherError => .error .osError

/-- `get_pty_slave(pid, parent_search_depth)`, with a fuel argument
standing for the Python call stack (the source recursion is bounded by the
`parent_search_depth == 2` test, so fuel 3 always suffices from depth 0). -/
def get_pty_slave (fs : FS) (fuel : Nat) (pid : Int)
    (parent_search_depth : Nat) : Except PyError (Option String) :=
  match fuel with
  | 0 => .error .recursionError
  | fuel' + 1 =>
    match get_pty_slave_folders fs with
    | .error e => .error e
    | .ok pty_slave_folders =>
      match get_info fs pid with
      | .error e => .error e
      | .ok process_info =>
        let tty_nr := pyInt process_info.tty_nr
        let minor_device_number := calculate_minor_device_number tty_nr
        match scan_pty_folders fs pty_slave_folders tty_nr minor_device_number with
        | .error e => .error e
        | .ok (some path) => .ok (some path)
        | .ok none =>
          if parent_search_depth = 2 then .ok none
          else get_pty_slave fs fuel' (pyInt process_info.ppid)
                (parent_search_depth + 1)

/-- The public entry point: `get_pty_slave(pid)` with the default
`parent_search_depth = 0`. -/
def resolve (fs : FS) (pid : Int) : Except PyError (Option String) :=
  get_pty_slave fs 3 pid 0

/-- Number of process-record lookup attempts (`get_info` calls, successful
or not) a `get_pty_slave` call performs; mirrors the control flow of
`get_pty_slave` exactly. -/
def resolve_lookup_attempts (fs : FS) (fuel : Nat) (pid : Int)
    (parent_search_depth : Nat) : Nat :=
  match fuel with
  | 0 => 0
  | fuel' + 1 =>
    match get_pty_slave_folders fs with
    | .error _ => 0
    | .ok pty_slave_folders =>
      1 +
        match get_info fs pid with
        | .error _ => 0
        | .ok process_info =>
          let tty_nr := pyInt process_info.tty_nr
          let minor_device_number := calculate_minor_device_number tty_nr
          match scan_pty_folders fs pty_slave_folders tty_nr minor_device_number with
          | .error _ => 0
          | .ok (some _) => 0
          | .ok none =>
            if parent_search_depth = 2 then 0
            else resolve_lookup_attempts fs fuel' (pyInt process_info.ppid)
                  (parent_search_depth + 1)

/-- A candidate folder the scan accepts: its device node exists and its
raw device identifier equals the record's full terminal identifier. -/
def scan_accepts (fs : FS) (tty_nr : Int) (minor : Nat) (folder : String) : Prop :=
  ∃ r, fs.devStat (device_path_of folder minor) = .found r ∧ tty_nr = (r : Int)

/-- A candidate folder the scan passes over without error: the node is
absent (`FileNotFoundError`, silently skipped) or its raw device
identifier differs from the terminal identifier. -/
def scan_skips (fs : FS) (tty_nr : Int) (minor : Nat) (folder : String) : Prop :=
  fs.devStat (device_path_of folder minor) = .fileNotFound ∨
    ∃ r, fs.devStat (device_path_of folder minor) = .found r ∧ tty_nr ≠ (r : Int)

/-- One real line of `/proc/tty/drivers` registering the pty-slave driver. -/
def ptySlaveDriversLine : List Char :=
  "pty_slave            /dev/pts      136 0-1048575 pty:slave\n".toList

/-- Fixture: pids 5 → 4 → 3 all readable with no controlling terminal,
pty-slave directory `/dev/pts` registered, no device node present. -/
def fsChain : FS :=
  FS.mk
    (fun p =>
      if p = 5 then some "5 (a) S 4 5 5 0".toList
      else if p = 4 then some "4 (b) S 3 4 4 0".toList
      else if p = 3 then some "3 (c) S 2 3 3 0".toList
      else none)
    (fun _ => StatResult.fileNotFound)
    [ptySlaveDriversLine]

/-- Fixture: no process record exists at all. -/
def fsNoProc : FS :=
  FS.mk (fun _ => none) (fun _ => StatResult.fileNotFound) [ptySlaveDriversLine]

/-- Fixture: pid 7's stat record exists but does not match the layout. -/
def fsMalformed : FS :=
  FS.mk (fun p => if p = 7 then some "bad record".toList else none)
    (fun _ => StatResult.fileNotFound) [ptySlaveDriversLine]

/-- Fixture: only pid 1 exists (parent pid 0 has no record), no tty. -/
def fsInitOnly : FS :=
  FS.mk (fun p => if p = 1 then some "1 (init) S 0 1 1 0".toList else none)
    (fun _ => StatResult.fileNotFound) [ptySlaveDriversLine]

/-- Fixture: pid 7 is on tty_nr 34816 (minor 0); stat-ing the candidate
`/dev/pts/0` fails with an error other than `FileNotFoundError`. -/
def fsDevError : FS :=
  FS.mk (fun p => if p = 7 then some "7 (bash) S 1 7 7 34816".toList else none)
    (fun path => if path = "/dev/pts/0" then StatResult.otherError
                 else StatResult.fileNotFound)
    [ptySlaveDriversLine]

theorem pyAnd32_natCast (n : Nat) (h : n < 2 ^ 32) (m : Nat) :
    pyAnd32 (n : Int) m = n &&& m := by
  unfold pyAnd32
  rw [Int.emod_eq_of_lt (Int.natCast_nonneg n) (by exact_mod_cast h)]
  simp

theorem scan_pty_folders_nil (fs : FS) (tty_nr : Int) (minor : Nat) :
    scan_pty_folders fs [] tty_nr minor = .ok none := rfl

theorem scan_pty_folders_cons (fs : FS) (tty_nr : Int) (minor : Nat)
    (folder : String) (rest : List String) :
    scan_pty_folders fs (folder :: rest) tty_nr minor =
      match fs.devStat (device_path_of folder minor) with
      | .found rdev =>
        if tty_nr = (rdev : Int) then .ok (some (device_path_of folder minor))
        else scan_pty_folders fs rest tty_nr minor
      | .fileNotFound => scan_pty_folders fs rest tty_nr minor
      | .otherError => .error .osError := rfl

theorem get_pty_slave_succ (fs : FS) (fuel : Nat) (pid : Int) (d : Nat) :
    get_pty_slave fs (fuel + 1) pid d =
      match get_pty_slave_folders fs with
      | .error e => .error e
      | .ok pty_slave_folders =>
        match get_info fs pid with
        | .error e => .error e
        | .ok process_info =>
          match scan_pty_folders fs pty_slave_folders (pyInt process_info.tty_nr)
              (calculate_minor_device_number (pyInt process_info.tty_nr)) with
          | .error e => .error e
          | .ok (some path) => .ok (some path)
          | .ok none =>
            if d = 2 then .ok none
            else get_pty_slave fs fuel (pyInt process_info.ppid) (d + 1) := rfl

theorem resolve_lookup_attempts_succ (fs : FS) (fuel : Nat) (pid : Int) (d : Nat) :
    resolve_lookup_attempts fs (fuel + 1) pid d =
      match get_pty_slave_folders fs with
      | .error _ => 0
      | .ok pty_slave_folders =>
        1 +
          match get_info fs pid with
          | .error _ => 0
          | .ok process_info =>
            match scan_pty_folders fs pty_slave_folders (pyInt process_info.tty_nr)
                (calculate_minor_device_number (pyInt process_info.tty_nr)) with
            | .error _ => 0
            | .ok (some _) => 0
            | .ok none =>
              if d = 2 then 0
              else resolve_lookup_attempts fs fuel (pyInt process_info.ppid) (d + 1) := rfl

theorem scan_pty_folders_error_prop (fs : FS) (tty_nr : Int) (minor : Nat)
    (pre : List String) (f : String) (post : List String)
    (hskips : ∀ g ∈ pre, scan_skips fs tty_nr minor g)
    (herr : fs.devStat (device_path_of f minor) = .otherError) :
    scan_pty_folders fs (pre ++ f :: post) tty_nr minor = .error .osError := by
  induction pre with
  | nil =>
    simp only [List.nil_append, scan_pty_folders_cons, herr]
  | cons g pre' ih =>
    have hskip := hskips g (by simp)
    have ih' := ih (fun g' hg' => hskips g' (by simp [hg']))
    rcases hskip with hdev | ⟨r, hdev, htty⟩
    · simp only [List.cons_append, scan_pty_folders_cons, hdev]
      exact ih'
    · simp only [List.cons_append, scan_pty_folders_cons, hdev, if_neg htty]
      exact ih'

/-- C1: for every 32-bit terminal identifier, `calculate_minor_device_number`
computes `(id &&& 0xFF) + ((id &&& 0xFFF00000) >>> 12)`; the embedded
function is total on the whole range, so no input raises. -/
theorem calculate_minor_device_number_formula (id : Nat) (h : id < 2 ^ 32) :
    calculate_minor_device_number (id : Int) =
      (id &&& 0xFF) + ((id &&& 0xFFF00000) >>> 12) := by
  simp only [calculate_minor_device_number, pyAnd32_natCast id h]

theorem calculate_minor_device_number_formula_witness :
    calculate_minor_device_number ((34816 : Nat) : Int) =
      ((34816 : Nat) &&& 0xFF) + (((34816 : Nat) &&& 0xFFF00000) >>> 12) :=
  calculate_minor_device_number_formula 34816 (by norm_num)

/-- C2 (counterexample): the decoder does not return 137 on `0x00088801` —
`0x00088801 &&& 0xFFF00000 = 0`, so the high contribution is 0, not 0x88. -/
theorem calculate_minor_device_number_example_ne :
    calculate_minor_device_number (0x00088801 : Int) ≠ 137 := by decide

/-- C2 (amended): on `0x00088801` the decoder returns
`0x01 + 0x00 = 1`. -/
theorem calculate_minor_device_number_example :
    calculate_minor_device_number (0x00088801 : Int) = 1 := by decide

/-- C3: a status line whose command name contains a literal close-paren
still parses correctly: the 15-character bound on the capture forces the
backtracking to settle on `my)cmd`, keeping the following fields aligned. -/
theorem get_info_parse_paren_comm :
    get_info_parse ("42 (my)cmd) S 1 42 42 34816".toList) =
      some ⟨"42".toList, "my)cmd".toList, 'S',
            "1".toList, "42".toList, "42".toList, "34816".toList⟩ ∧
    pyInt "1".toList = 1 ∧ pyInt "42".toList = 42 ∧
    pyInt "34816".toList = 34816 := by decide

/-- C4: the match scan returns `some path` exactly when `path` is the
candidate of the first directory (in table enumeration order) whose raw
device identifier (`st_rdev`) equals the record's full terminal
identifier, every earlier directory having been passed over (node absent,
or raw identifier not equal to the full terminal identifier — matching
the decoded minor alone never accepts). -/
theorem scan_pty_folders_first_match (fs : FS) (tty_nr : Int) (minor : Nat)
    (folders : List String) (path : String) :
    scan_pty_folders fs folders tty_nr minor = Except.ok (some path) ↔
      ∃ pre f post, folders = pre ++ f :: post ∧
        path = device_path_of f minor ∧
        scan_accepts fs tty_nr minor f ∧
        ∀ g ∈ pre, scan_skips fs tty_nr minor g := by
  induction folders with
  | nil =>
    simp only [scan_pty_folders_nil]
    constructor
    · intro h
      simp at h
    · rintro ⟨pre, f, post, hsplit, -⟩
      cases pre <;> simp at hsplit
  | cons folder rest ih =>
    constructor
    · intro h
      cases hdev : fs.devStat (device_path_of folder minor) with
      | found r =>
        simp only [scan_pty_folders_cons, hdev] at h
        by_cases htty : tty_nr = (r : Int)
        · rw [if_pos htty] at h
          injection h with h1
          injection h1 with h2
          exact ⟨[], folder, rest, rfl, h2.symm, ⟨r, hdev, htty⟩, by simp⟩
        · rw [if_neg htty] at h
          obtain ⟨pre, f, post, hsplit, hpath, hacc, hskips⟩ := ih.mp h
          refine ⟨folder :: pre, f, post, by rw [hsplit]; rfl, hpath, hacc, ?_⟩
          intro g hg
          rcases List.mem_cons.mp hg with hg | hg
          · subst hg
            exact Or.inr ⟨r, hdev, htty⟩
          · exact hskips g hg
      | fileNotFound =>
        simp only [scan_pty_folders_cons, hdev] at h
        obtain ⟨pre, f, post, hsplit, hpath, hacc, hskips⟩ := ih.mp h
        refine ⟨folder :: pre, f, post, by rw [hsplit]; rfl, hpath, hacc, ?_⟩
        intro g hg
        rcases List.mem_cons.mp hg with hg | hg
        · subst hg
          exact Or.inl hdev
        · exact hskips g hg
      | otherError =>
        simp only [scan_pty_folders_cons, hdev] at h
        cases h
    · rintro ⟨pre, f, post, hsplit, hpath, hacc, hskips⟩
      cases pre with
      | nil =>
        rw [List.nil_append] at hsplit
        injection hsplit with hf hrest
        subst hf
        subst hrest
        obtain ⟨r, hdev, htty⟩ := hacc
        simp only [scan_pty_folders_cons, hdev, if_pos htty, hpath]
      | cons g pre' =>
        rw [List.cons_append] at hsplit
        injection hsplit with hg hrest
        subst hg
        have hskip := hskips folder (by simp)
        have htail : ∀ g' ∈ pre', scan_skips fs tty_nr minor g' :=
          fun g' hg' => hskips g' (by simp [hg'])
        rcases hskip with hdev | ⟨r, hdev, htty⟩
        · simp only [scan_pty_folders_cons, hdev]
          exact ih.mpr ⟨pre', f, post, hrest, hpath, hacc, htail⟩
        · simp only [scan_pty_folders_cons, hdev, if_neg htty]
          exact ih.mpr ⟨pre', f, post, hrest, hpath, hacc, htail⟩

/-- C5: on a pid whose record and whose two ancestors' records are all
readable and parse, with no candidate matching at any of the three
depths, `resolve` returns the `NotFound` value (`ok none`) after exactly
`max_parent_hops + 1 = 3` process-record lookup attempts. -/
theorem resolve_no_match_three_lookups (fs : FS) (pid p1 p2 : Int)
    (i0 i1 i2 : StatInfo) (folders : List String)
    (hf : get_pty_slave_folders fs = .ok folders)
    (h0 : get_info fs pid = .ok i0)
    (h1 : get_info fs p1 = .ok i1)
    (h2 : get_info fs p2 = .ok i2)
    (hp0 : pyInt i0.ppid = p1)
    (hp1 : pyInt i1.ppid = p2)
    (s0 : scan_pty_folders fs folders (pyInt i0.tty_nr)
        (calculate_minor_device_number (pyInt i0.tty_nr)) = .ok none)
    (s1 : scan_pty_folders fs folders (pyInt i1.tty_nr)
        (calculate_minor_device_number (pyInt i1.tty_nr)) = .ok none)
    (s2 : scan_pty_folders fs folders (pyInt i2.tty_nr)
        (calculate_minor_device_number (pyInt i2.tty_nr)) = .ok none) :
    resolve fs pid = .ok none ∧ resolve_lookup_attempts fs 3 pid 0 = 3 := by
  have e0 : get_pty_slave fs 3 pid 0 = get_pty_slave fs 2 p1 1 := by
    show get_pty_slave fs (2 + 1) pid 0 = _
    rw [get_pty_slave_succ]
    simp only [hf, h0, s0, hp0]
    simp
  have e1 : get_pty_slave fs 2 p1 1 = get_pty_slave fs 1 p2 2 := by
    show get_pty_slave fs (1 + 1) p1 1 = _
    rw [get_pty_slave_succ]
    simp only [hf, h1, s1, hp1]
    simp
  have e2 : get_pty_slave fs 1 p2 2 = .ok none := by
    show get_pty_slave fs (0 + 1) p2 2 = _
    rw [get_pty_slave_succ]
    simp only [hf, h2, s2]
    simp
  have c2 : resolve_lookup_attempts fs 1 p2 2 = 1 := by
    show resolve_lookup_attempts fs (0 + 1) p2 2 = 1
    rw [resolve_lookup_attempts_succ]
    simp only [hf, h2, s2]
    simp
  have c1 : resolve_lookup_attempts fs 2 p1 1 = 2 := by
    show resolve_lookup_attempts fs (1 + 1) p1 1 = 2
    rw [resolve_lookup_attempts_succ]
    simp only [hf, h1, s1, hp1]
    simp [c2]
  have c0 : resolve_lookup_attempts fs 3 pid 0 = 3 := by
    show resolve_lookup_attempts fs (2 + 1) pid 0 = 3
    rw [resolve_lookup_attempts_succ]
    simp only [hf, h0, s0, hp0]
    simp [c1]
  exact ⟨(e0.trans (e1.trans e2) : resolve fs pid = .ok none), c0⟩

theorem resolve_no_match_three_lookups_witness :
    resolve fsChain 5 = .ok none ∧ resolve_lookup_attempts fsChain 3 5 0 = 3 :=
  resolve_no_match_three_lookups fsChain 5 4 3
    ⟨"5".toList, "a".toList, 'S', "4".toList, "5".toList, "5".toList, "0".toList⟩
    ⟨"4".toList, "b".toList, 'S', "3".toList, "4".toList, "4".toList, "0".toList⟩
    ⟨"3".toList, "c".toList, 'S', "2".toList, "3".toList, "3".toList, "0".toList⟩
    ["/dev/pts"] rfl rfl rfl rfl rfl rfl rfl rfl rfl

/-- C6: a pid whose status record cannot be opened makes `resolve` fail
with the `FileNotFoundError`-backed `ProcessNotFound` error, which is a
different value from the `ok none` (`NotFound`) result a live pty-less
process yields. -/
theorem resolve_nonexistent_pid (fs : FS) (pid : Int) (folders : List String)
    (hf : get_pty_slave_folders fs = .ok folders)
    (h : fs.procStat pid = none) :
    resolve fs pid = .error .fileNotFound ∧
    (Except.error PyError.fileNotFound : Except PyError (Option String)) ≠
      .ok none := by
  have hi : get_info fs pid = .error .fileNotFound := by
    simp [get_info, h]
  constructor
  · show get_pty_slave fs (2 + 1) pid 0 = _
    rw [get_pty_slave_succ]
    simp only [hf, hi]
  · exact fun hc => Except.noConfusion hc

theorem resolve_nonexistent_pid_witness :
    resolve fsNoProc 9 = .error .fileNotFound ∧
    (Except.error PyError.fileNotFound : Except PyError (Option String)) ≠
      .ok none :=
  resolve_nonexistent_pid fsNoProc 9 ["/dev/pts"] rfl rfl

/-- C7: a record that opens but does not match the expected layout makes
`get_info`, and hence `resolve`, fail with the `AttributeError`-backed
`MalformedRecord` error — distinct from `ProcessNotFound` — after a single
lookup attempt (no retry). -/
theorem resolve_malformed_record (fs : FS) (pid : Int) (data : List Char)
    (folders : List String)
    (hf : get_pty_slave_folders fs = .ok folders)
    (hd : fs.procStat pid = some data)
    (hp : get_info_parse data = none) :
    resolve fs pid = .error .attributeError ∧
    PyError.attributeError ≠ PyError.fileNotFound ∧
    resolve_lookup_attempts fs 3 pid 0 = 1 := by
  have hi : get_info fs pid = .error .attributeError := by
    simp [get_info, hd, hp]
  refine ⟨?_, by decide, ?_⟩
  · show get_pty_slave fs (2 + 1) pid 0 = _
    rw [get_pty_slave_succ]
    simp only [hf, hi]
  · show resolve_lookup_attempts fs (2 + 1) pid 0 = 1
    rw [resolve_lookup_attempts_succ]
    simp only [hf, hi]

theorem resolve_malformed_record_witness :
    resolve fsMalformed 7 = .error .attributeError ∧
    PyError.attributeError ≠ PyError.fileNotFound ∧
    resolve_lookup_attempts fsMalformed 3 7 0 = 1 :=
  resolve_malformed_record fsMalformed 7 ("bad record".toList) ["/dev/pts"]
    rfl rfl rfl

/-- C8: the directory table is memoized: once a first call has computed
and cached it, a second call returns the same value even if the
underlying driver file content changed in between. -/
theorem get_pty_slave_folders_cached_once (lines1 lines2 : List (List Char))
    (v : List String)
    (h : get_pty_slave_folders_compute lines1 = .ok v) :
    (get_pty_slave_folders_cached none lines1).1 = .ok v ∧
    (get_pty_slave_folders_cached
        (get_pty_slave_folders_cached none lines1).2 lines2).1 = .ok v := by
  simp [get_pty_slave_folders_cached, h]

theorem get_pty_slave_folders_cached_once_witness :
    (get_pty_slave_folders_cached none [ptySlaveDriversLine]).1 =
      .ok ["/dev/pts"] ∧
    (get_pty_slave_folders_cached
        (get_pty_slave_folders_cached none [ptySlaveDriversLine]).2 []).1 =
      .ok ["/dev/pts"] :=
  get_pty_slave_folders_cached_once [ptySlaveDriversLine] [] ["/dev/pts"] rfl

/-- C9: even when the given pid's record exists and parses, `resolve` can
still raise `ProcessNotFound`: with no match at depth 0 it unconditionally
reads the parent's record, so a vanished ancestor (or parent pid 0)
surfaces the error mid-walk instead of returning `NotFound`. -/
theorem resolve_parent_vanished (fs : FS) (pid : Int) (folders : List String)
    (info : StatInfo)
    (hf : get_pty_slave_folders fs = .ok folders)
    (hi : get_info fs pid = .ok info)
    (hscan : scan_pty_folders fs folders (pyInt info.tty_nr)
        (calculate_minor_device_number (pyInt info.tty_nr)) = .ok none)
    (hparent : fs.procStat (pyInt info.ppid) = none) :
    resolve fs pid = .error .fileNotFound := by
  have hpinfo : get_info fs (pyInt info.ppid) = .error .fileNotFound := by
    simp [get_info, hparent]
  have e0 : get_pty_slave fs 3 pid 0 = get_pty_slave fs 2 (pyInt info.ppid) 1 := by
    show get_pty_slave fs (2 + 1) pid 0 = _
    rw [get_pty_slave_succ]
    simp only [hf, hi, hscan]
    simp
  show get_pty_slave fs 3 pid 0 = _
  rw [e0]
  show get_pty_slave fs (1 + 1) (pyInt info.ppid) 1 = _
  rw [get_pty_slave_succ]
  simp only [hf, hpinfo]

theorem resolve_parent_vanished_witness :
    resolve fsInitOnly 1 = .error .fileNotFound :=
  resolve_parent_vanished fsInitOnly 1 ["/dev/pts"]
    ⟨"1".toList, "init".toList, 'S', "0".toList, "1".toList, "1".toList,
     "0".toList⟩
    rfl rfl rfl rfl

/-- C10: a stat failure other than `FileNotFoundError` on a candidate
(every earlier candidate having been skipped) propagates out of `resolve`
at once — the remaining directories and the ancestry fallback are never
consulted (the conclusion holds for every filesystem extending this
state, in particular whatever `post` and the ancestors hold). -/
theorem resolve_stat_error_aborts (fs : FS) (pid : Int)
    (pre : List String) (f : String) (post : List String) (info : StatInfo)
    (hf : get_pty_slave_folders fs = .ok (pre ++ f :: post))
    (hi : get_info fs pid = .ok info)
    (hskips : ∀ g ∈ pre, scan_skips fs (pyInt info.tty_nr)
        (calculate_minor_device_number (pyInt info.tty_nr)) g)
    (herr : fs.devStat (device_path_of f
        (calculate_minor_device_number (pyInt info.tty_nr))) = .otherError) :
    resolve fs pid = .error .osError := by
  have hscan := scan_pty_folders_error_prop fs (pyInt info.tty_nr)
    (calculate_minor_device_number (pyInt info.tty_nr)) pre f post hskips herr
  show get_pty_slave fs (2 + 1) pid 0 = _
  rw [get_pty_slave_succ]
  simp only [hf, hi, hscan]

theorem resolve_stat_error_aborts_witness :
    resolve fsDevError 7 = .error .osError :=
  resolve_stat_error_aborts fsDevError 7 [] "/dev/pts" []
    ⟨"7".toList, "bash".toList, 'S', "1".toList, "7".toList, "7".toList,
     "34816".toList⟩
    rfl rfl (fun g hg => absurd hg (by simp)) rfl
